import Mathlib

/-!
Verification of the TrackVault monitoring pipeline: an embedding of the
risk classifier, ingestion gate, activity/alert/signal stores and the
reader-side consumption protocol, followed by theorems about the spec's
claims.  Database tables are modelled as Lean lists in rowid order;
SQLite autoincrement ids are threaded explicitly through the state.
-/

namespace TrackVault

/-- Lowercasing of a string, modelling Python `str.lower()` (ASCII range). -/
def lowerStr (s : String) : String := ⟨s.data.map Char.toLower⟩

/-- Substring containment, modelling the Python expression `sub in s`. -/
def containsSub (s sub : String) : Bool := decide (List.IsInfix sub.data s.data)

/-- Final path component, modelling `os.path.basename` (split on both
Windows and POSIX separators). -/
def basename (p : String) : String :=
  ⟨p.data.foldl (fun acc c => if c = '/' || c = '\\' then [] else acc ++ [c]) []⟩

/-- Risk-rule block of the configuration (`risk_settings` in
`monitor_service.load_config`). -/
structure RiskSettings where
  high_risk_extensions : List String
  high_risk_actions : List String
  sensitive_paths : List String
deriving DecidableEq

/-- Monitoring configuration: the recognized keys of
`monitor_service.load_config` together with the service's `db_path`
attribute (used by `should_ignore_file` for self-noise suppression). -/
structure Config where
  watch_paths : List String
  excluded_extensions : List String
  excluded_paths : List String
  risk_settings : RiskSettings
  sync_interval : Nat
  max_buffer_size : Nat
  db_path : String
deriving DecidableEq

/-- Built-in default configuration of `MonitorService.load_config`. -/
def default_config : Config where
  watch_paths := ["C:\\Users\\Chandan Deshmukh\\Desktop", "C:\\Users\\Chandan Deshmukh\\Documents"]
  excluded_extensions := [".tmp", ".log", ".pyc"]
  excluded_paths := ["__pycache__", "node_modules", ".git"]
  risk_settings :=
    { high_risk_extensions := [".exe", ".dll", ".sys", ".bat", ".cmd", ".ps1"]
      high_risk_actions := ["DELETE", "MOVE"]
      sensitive_paths := ["system32", "windows", "program files"] }
  sync_interval := 5
  max_buffer_size := 100
  db_path := "monitor_data.db"

/-- Risk classifier of `MonitorService.assess_risk_level`: action check,
then high-risk extensions, then sensitive paths, then Medium keywords. -/
def assess_risk_level (cfg : Config) (file_path action : String) : String :=
  if cfg.risk_settings.high_risk_actions.contains action then "High"
  else if cfg.risk_settings.high_risk_extensions.any
      (fun ext => containsSub (lowerStr file_path) ext) then "High"
  else if cfg.risk_settings.sensitive_paths.any
      (fun p => containsSub (lowerStr file_path) p) then "High"
  else if containsSub (lowerStr file_path) "documents"
      || containsSub (lowerStr file_path) "desktop" then "Medium"
  else "Low"

/-- Hard-coded sensitive path fragments of
`FileActivityMonitor.assess_risk_level`. -/
def fm_high_risk_paths : List String :=
  ["system32", "windows", "program files", "programdata", "users\\all users", "boot", "config"]

/-- Hard-coded sensitive extensions of
`FileActivityMonitor.assess_risk_level`. -/
def fm_sensitive_extensions : List String :=
  [".exe", ".dll", ".sys", ".bat", ".cmd", ".ps1", ".reg"]

/-- Risk classifier of `FileActivityMonitor.assess_risk_level`: sensitive
paths first, then extensions, then the action check. -/
def fm_assess_risk_level (file_path action : String) : String :=
  if fm_high_risk_paths.any (fun p => containsSub (lowerStr file_path) p) then "High"
  else if fm_sensitive_extensions.any (fun ext => containsSub (lowerStr file_path) ext) then "High"
  else if (["DELETE", "MOVE"] : List String).contains action then "High"
  else if containsSub (lowerStr file_path) "documents"
      || containsSub (lowerStr file_path) "desktop" then "Medium"
  else "Low"

/-- Rule chain of spec section 4.2, written in the spec's order (action,
then sensitive paths, then high-risk extensions, then Medium keywords);
kept separate from `assess_risk_level` for the refinement comparison. -/
def classify_spec (cfg : Config) (file_path action : String) : String :=
  if cfg.risk_settings.high_risk_actions.contains action then "High"
  else if cfg.risk_settings.sensitive_paths.any
      (fun p => containsSub (lowerStr file_path) p) then "High"
  else if cfg.risk_settings.high_risk_extensions.any
      (fun ext => containsSub (lowerStr file_path) ext) then "High"
  else if containsSub (lowerStr file_path) "documents"
      || containsSub (lowerStr file_path) "desktop" then "Medium"
  else "Low"

/-- Policy holding the hard-coded rule lists of `FileActivityMonitor`
(for comparing `fm_assess_risk_level` with the spec's rule chain). -/
def fm_config : Config :=
  { default_config with
    risk_settings :=
      { high_risk_extensions := fm_sensitive_extensions
        high_risk_actions := ["DELETE", "MOVE"]
        sensitive_paths := fm_high_risk_paths } }

/-- Ingestion-gate filter of `MonitorService.should_ignore_file`. -/
def should_ignore_file (cfg : Config) (file_path : String) : Bool :=
  cfg.excluded_extensions.any (fun ext => containsSub (lowerStr file_path) ext)
  || cfg.excluded_paths.any (fun p => containsSub (lowerStr file_path) p)
  || containsSub file_path cfg.db_path

/-- Swapping the second and third guard of an all-`H` rule chain does not
change its value. -/
theorem ite_chain_swap23 (a b c : Bool) (H r : String) :
    (if a then H else if b then H else if c then H else r)
      = (if a then H else if c then H else if b then H else r) := by
  cases a <;> cases b <;> cases c <;> simp

/-- Rotating the guards of an all-`H` rule chain does not change its
value. -/
theorem ite_chain_rotate (a b c : Bool) (H r : String) :
    (if a then H else if b then H else if c then H else r)
      = (if c then H else if a then H else if b then H else r) := by
  cases a <;> cases b <;> cases c <;> simp

/-- C1: both risk classifiers return exactly the value of the spec's
first-match-wins rule chain (High on action match, else High on a
sensitive-path substring of the lowercased path, else High on a
high-risk-extension substring, else Medium on documents/desktop, else
Low); being pure functions, the result depends only on
(path, action, Policy). -/
theorem assess_risk_level_matches_spec (cfg : Config) (file_path action : String) :
    assess_risk_level cfg file_path action = classify_spec cfg file_path action
    ∧ fm_assess_risk_level file_path action = classify_spec fm_config file_path action := by
  constructor
  · exact ite_chain_swap23 _ _ _ _ _
  · exact ite_chain_rotate _ _ _ _ _

/-- Row of the `file_activities` table (ChangeEvent).  `status` has SQL
default `New`; inserts in `log_activity` leave it at the default. -/
structure Activity where
  id : Nat
  timestamp : String
  username : String
  process_name : String
  process_id : Nat
  action : String
  file_path : String
  file_size : Nat
  risk_level : String
  status : String
deriving DecidableEq

/-- Row of the `alerts` table.  `status` has SQL default `New`. -/
structure AlertRow where
  id : Nat
  timestamp : String
  username : String
  description : String
  file_path : String
  risk_level : String
  status : String
deriving DecidableEq

/-- Structured payload passed to `send_signal` (the dict serialized to
JSON in the `data` column). -/
inductive SignalData where
  | alertData (description file_path risk_level timestamp : String)
  | activityData (id : Nat) (action file_name risk_level timestamp : String)
deriving DecidableEq

/-- Row of the `live_signals` table.  `processed` has SQL default
`FALSE`; `timestamp` defaults to the wall clock, modelled as a `Nat`. -/
structure SignalRow where
  id : Nat
  signal_type : String
  data : Option SignalData
  timestamp : Nat
  processed : Bool
deriving DecidableEq

/-- Row of the singleton `service_status` table. -/
structure StatusRow where
  status : String
  last_update : String
  monitored_paths : List String
  total_activities : Nat
  alerts_count : Nat
deriving DecidableEq

/-- State of the shared store `monitor_data.db`: the four tables in rowid
order plus the pending autoincrement counters. -/
structure MonitorDb where
  activities : List Activity
  alerts : List AlertRow
  signals : List SignalRow
  status_table : List (Nat × StatusRow)
  next_activity_id : Nat
  next_alert_id : Nat
  next_signal_id : Nat
deriving DecidableEq

/-- Store as created by `init_database` before the first status upsert:
empty tables, autoincrement counters at 1. -/
def empty_db : MonitorDb := ⟨[], [], [], [], 1, 1, 1⟩

/-- Ambient process information and clock readings taken during one
pipeline call (`psutil` lookups and `datetime.now()`). -/
structure Ctx where
  username : String
  process_name : String
  process_id : Nat
  timestamp : String
  sig_ts : Nat
deriving DecidableEq

/-- Producer append of `MonitorService.send_signal`: one `live_signals`
row with `processed` at its default `FALSE`. -/
def send_signal (signal_type : String) (data : Option SignalData) (ts : Nat)
    (db : MonitorDb) : MonitorDb :=
  { db with
    signals := db.signals ++ [⟨db.next_signal_id, signal_type, data, ts, false⟩]
    next_signal_id := db.next_signal_id + 1 }

/-- Activity logging of `MonitorService.log_activity`: classify, insert
the ChangeEvent, insert an Alert plus a `new_alert` signal when the risk
is High, then append the `new_activity` signal. -/
def log_activity (cfg : Config) (ctx : Ctx) (action file_path : String)
    (file_size : Nat) (db : MonitorDb) : MonitorDb :=
  let risk_level := assess_risk_level cfg file_path action
  let activity_id := db.next_activity_id
  let db1 : MonitorDb :=
    { db with
      activities := db.activities ++
        [⟨activity_id, ctx.timestamp, ctx.username, ctx.process_name, ctx.process_id,
          action, file_path, file_size, risk_level, "New"⟩]
      next_activity_id := db.next_activity_id + 1 }
  let db2 : MonitorDb :=
    if risk_level == "High" then
      let description := "High-risk " ++ lowerStr action ++ " operation detected"
      let dbA : MonitorDb :=
        { db1 with
          alerts := db1.alerts ++
            [⟨db1.next_alert_id, ctx.timestamp, ctx.username, description, file_path,
              "High", "New"⟩]
          next_alert_id := db1.next_alert_id + 1 }
      send_signal "new_alert"
        (some (.alertData description file_path "High" ctx.timestamp)) ctx.sig_ts dbA
    else db1
  send_signal "new_activity"
    (some (.activityData activity_id action (basename file_path) risk_level ctx.timestamp))
    ctx.sig_ts db2

/-- Alert description produced by `FileActivityMonitor.log_activity`
(the standalone monitor appends the basename of the path). -/
def fm_alert_description (action file_path : String) : String :=
  "High-risk " ++ lowerStr action ++ " operation detected on " ++ basename file_path

/-- Raw file-system events delivered by the watchdog observer. -/
inductive Ev where
  | created (is_directory : Bool) (src_path : String) (file_size : Nat)
  | modified (is_directory : Bool) (src_path : String) (file_size : Nat)
  | deleted (is_directory : Bool) (src_path : String)
  | moved (is_directory : Bool) (src_path dest_path : String)
deriving DecidableEq

/-- Source path of a raw event (the path the ingestion gate filters on). -/
def ev_src : Ev → String
  | .created _ s _ => s
  | .modified _ s _ => s
  | .deleted _ s => s
  | .moved _ s _ => s

/-- Gate of `FileActivityMonitor.on_created`, wired to the service's
`should_ignore_file` and `log_activity` as in
`MonitorService.start_monitoring`. -/
def on_created (cfg : Config) (ctx : Ctx) (is_directory : Bool) (src_path : String)
    (file_size : Nat) (db : MonitorDb) : MonitorDb :=
  if !is_directory && !should_ignore_file cfg src_path then
    log_activity cfg ctx "CREATE" src_path file_size db
  else db

/-- Gate of `FileActivityMonitor.on_modified`. -/
def on_modified (cfg : Config) (ctx : Ctx) (is_directory : Bool) (src_path : String)
    (file_size : Nat) (db : MonitorDb) : MonitorDb :=
  if !is_directory && !should_ignore_file cfg src_path then
    log_activity cfg ctx "MODIFY" src_path file_size db
  else db

/-- Gate of `FileActivityMonitor.on_deleted` (no size lookup). -/
def on_deleted (cfg : Config) (ctx : Ctx) (is_directory : Bool) (src_path : String)
    (db : MonitorDb) : MonitorDb :=
  if !is_directory && !should_ignore_file cfg src_path then
    log_activity cfg ctx "DELETE" src_path 0 db
  else db

/-- Gate of `FileActivityMonitor.on_moved`: source and destination are
concatenated into one descriptive path string. -/
def on_moved (cfg : Config) (ctx : Ctx) (is_directory : Bool) (src_path dest_path : String)
    (db : MonitorDb) : MonitorDb :=
  if !is_directory && !should_ignore_file cfg src_path then
    log_activity cfg ctx "MOVE" (src_path ++ " -> " ++ dest_path) 0 db
  else db

/-- Dispatch of a raw event to the matching gate handler. -/
def dispatch (cfg : Config) (ctx : Ctx) : Ev → MonitorDb → MonitorDb
  | .created d s z, db => on_created cfg ctx d s z db
  | .modified d s z, db => on_modified cfg ctx d s z db
  | .deleted d s, db => on_deleted cfg ctx d s db
  | .moved d s t, db => on_moved cfg ctx d s t db

/-- Heartbeat upsert of `MonitorService.update_service_status`:
`INSERT OR REPLACE` of the row with fixed id 1, with the two aggregate
counts read in the same statement. -/
def update_service_status (cfg : Config) (now status : String) (db : MonitorDb) :
    MonitorDb :=
  { db with
    status_table :=
      (1, ⟨status, now, cfg.watch_paths, db.activities.length,
        (db.alerts.filter (fun a => a.status == "New")).length⟩)
        :: db.status_table.filter (fun p => p.1 != 1) }

/-- Store state right after `MonitorService.init_database`: fresh tables
followed by the `Starting` status upsert. -/
def init_database (cfg : Config) (now : String) : MonitorDb :=
  update_service_status cfg now "Starting" empty_db

/-- Timestamp order on signal rows (the `ORDER BY timestamp ASC` of the
consumer query). -/
def sigLe (a b : SignalRow) : Prop := a.timestamp ≤ b.timestamp

instance : DecidableRel sigLe := fun a b => Nat.decLe a.timestamp b.timestamp

instance : IsTotal SignalRow sigLe := ⟨fun a b => Nat.le_total a.timestamp b.timestamp⟩

instance : IsTrans SignalRow sigLe := ⟨fun _ _ _ => Nat.le_trans⟩

/-- Consumer read of `WebInterface.get_live_signals`: select the rows
with `processed = FALSE` ordered by timestamp ascending, then mark the
read set `processed = TRUE` by id (only when the read set is
nonempty). -/
def get_live_signals (db : MonitorDb) : List SignalRow × MonitorDb :=
  let signals := List.insertionSort sigLe (db.signals.filter (fun s => !s.processed))
  let signal_ids := signals.map (fun s => s.id)
  let marked := db.signals.map
    (fun s => if signal_ids.contains s.id then { s with processed := true } else s)
  (signals, if signal_ids.isEmpty then db else { db with signals := marked })

/-- Status mapping of the `/api/alert-action` endpoint
(`status_map.get(action, 'New')` models as `Option.getD`). -/
def status_map (action : String) : Option String :=
  if action == "acknowledge" then some "Acknowledged"
  else if action == "resolve" then some "Resolved"
  else if action == "dismiss" then some "Dismissed"
  else if action == "investigate" then some "Under Investigation"
  else none

/-- Alert-action endpoint `api_alert_action` of the web interface:
unconditional status update of the targeted row, success response with
the new status. -/
def api_alert_action (action : String) (alert_id : Nat) (db : MonitorDb) :
    (Bool × String) × MonitorDb :=
  let new_status := (status_map action).getD "New"
  ((true, new_status),
    { db with
      alerts := db.alerts.map
        (fun a => if a.id == alert_id then { a with status := new_status } else a) })

/-- Legacy `acknowledge_alert` endpoint of `app.py`: status update on
the `alerts` table of `file_activity.db`. -/
def app_acknowledge_alert (alert_id : Nat) (alerts : List AlertRow) : List AlertRow :=
  alerts.map (fun a => if a.id == alert_id then { a with status := "Acknowledged" } else a)

/-- Legacy `resolve_alert` endpoint of `app.py`. -/
def app_resolve_alert (alert_id : Nat) (alerts : List AlertRow) : List AlertRow :=
  alerts.map (fun a => if a.id == alert_id then { a with status := "Resolved" } else a)

/-- Legacy `dismiss_alert` endpoint of `app.py`: `DELETE FROM alerts
WHERE id = ?` removes the row instead of updating its status. -/
def app_dismiss_alert (alert_id : Nat) (alerts : List AlertRow) : List AlertRow :=
  alerts.filter (fun a => a.id != alert_id)

/-- Operations that touch the shared store: event ingestion, a consumer
poll, a heartbeat tick, an alert-action request, and a bare producer
append. -/
inductive Op where
  | ingest (ctx : Ctx) (e : Ev)
  | consume
  | tick (now status : String)
  | alertAction (action : String) (alert_id : Nat)
  | produce (signal_type : String) (data : Option SignalData) (ts : Nat)
deriving DecidableEq

/-- One step against the store, returning the new state together with
the signal ids handed to the reader by this step. -/
def apply_op (cfg : Config) : Op → MonitorDb → MonitorDb × List Nat
  | .ingest ctx e, db => (dispatch cfg ctx e db, [])
  | .consume, db =>
      let r := get_live_signals db
      (r.2, r.1.map (fun s => s.id))
  | .tick now status, db => (update_service_status cfg now status db, [])
  | .alertAction action alert_id, db => ((api_alert_action action alert_id db).2, [])
  | .produce t d ts, db => (send_signal t d ts db, [])

/-- Run of a sequence of store operations, collecting every signal id
returned to readers along the way. -/
def run_ops (cfg : Config) : List Op → MonitorDb → MonitorDb × List Nat
  | [], db => (db, [])
  | op :: ops, db =>
      let r1 := apply_op cfg op db
      let r2 := run_ops cfg ops r1.1
      (r2.1, r1.2 ++ r2.2)

/-- Well-formedness of the signal table maintained by the pipeline:
every id is below the autoincrement counter and ids are distinct. -/
def SigInv (db : MonitorDb) : Prop :=
  (∀ s ∈ db.signals, s.id < db.next_signal_id)
  ∧ (db.signals.map (fun s => s.id)).Nodup

/-- Well-formedness of the `service_status` table: at most one row, and
only the fixed id 1. -/
def StatusInv (db : MonitorDb) : Prop :=
  db.status_table.length ≤ 1 ∧ ∀ p ∈ db.status_table, p.1 = 1

/-- Outcome of one attempt to take the store's write lock. -/
inductive WriteOutcome where
  | ok
  | busy
deriving DecidableEq

/-- Contended variant of `log_activity`: `outs n` is the lock outcome the
store would give the n-th write attempt.  The source executes its INSERT
once with no try/except around it, so a busy lock surfaces
`sqlite3.OperationalError` at the first attempt and nothing later in the
outcome stream is ever consulted. -/
def log_activity_contended (cfg : Config) (ctx : Ctx) (action file_path : String)
    (file_size : Nat) (db : MonitorDb) (outs : Nat → WriteOutcome) :
    Except String MonitorDb :=
  match outs 0 with
  | .busy => .error "database is locked"
  | .ok => .ok (log_activity cfg ctx action file_path file_size db)

/-- Modelled from the spec: the bounded-backoff retry loop of sections
4.3 and 7, which the spec attributes to the writer but which is absent
from the source; it keeps attempting the write until the lock is free or
a fixed maximum attempt count is exhausted.  Returns the index after the
successful attempt. -/
def retry_write (outs : Nat → WriteOutcome) : Nat → Nat → Option Nat
  | _, 0 => none
  | pos, fuel + 1 =>
      match outs pos with
      | .ok => some (pos + 1)
      | .busy => retry_write outs (pos + 1) fuel

/-- Modelled from the spec: `log_activity` as the spec describes it,
with the store write retried under `retry_write` up to `maxAttempts`
before surfacing a recoverable failure. -/
def log_activity_retrying (maxAttempts : Nat) (cfg : Config) (ctx : Ctx)
    (action file_path : String) (file_size : Nat) (db : MonitorDb)
    (outs : Nat → WriteOutcome) : Except String MonitorDb :=
  match retry_write outs 0 maxAttempts with
  | some _ => .ok (log_activity cfg ctx action file_path file_size db)
  | none => .error "database is locked: retries exhausted"

/-- Outcome stream whose first attempt is busy and whose lock is free
from the second attempt on. -/
def busy_then_free : Nat → WriteOutcome
  | 0 => .busy
  | _ + 1 => .ok

/-- Strings sandwiching `x` leave it as a substring. -/
theorem containsSub_middle (a x b : String) : containsSub (a ++ x ++ b) x = true := by
  have h : x.data <:+: (a ++ x ++ b).data := ⟨a.data, b.data, by simp⟩
  simp [containsSub, h]

/-- C2: one `log_activity` call appends exactly one ChangeEvent row, and
appends exactly one Alert row - with status New, risk High, and the
event's path and username - precisely when the computed risk level is
High; for any other risk level the alerts table is untouched. -/
theorem log_activity_alert_exact (cfg : Config) (ctx : Ctx) (action file_path : String)
    (file_size : Nat) (db : MonitorDb) :
    (log_activity cfg ctx action file_path file_size db).activities
      = db.activities ++
        [⟨db.next_activity_id, ctx.timestamp, ctx.username, ctx.process_name, ctx.process_id,
          action, file_path, file_size, assess_risk_level cfg file_path action, "New"⟩]
    ∧ (log_activity cfg ctx action file_path file_size db).alerts
      = (if assess_risk_level cfg file_path action == "High" then
          db.alerts ++
            [⟨db.next_alert_id, ctx.timestamp, ctx.username,
              "High-risk " ++ lowerStr action ++ " operation detected", file_path,
              "High", "New"⟩]
        else db.alerts) := by
  cases h : assess_risk_level cfg file_path action == "High" <;>
    simp [log_activity, send_signal, h]

/-- C3: an event whose path matches an excluded extension or excluded
path entry is dropped at the ingestion gate: the store is returned
unchanged, so no ChangeEvent, Alert or Signal row is added. -/
theorem excluded_event_dropped (cfg : Config) (ctx : Ctx) (e : Ev) (db : MonitorDb)
    (h : (cfg.excluded_extensions.any (fun ext => containsSub (lowerStr (ev_src e)) ext)
        || cfg.excluded_paths.any (fun p => containsSub (lowerStr (ev_src e)) p)) = true) :
    dispatch cfg ctx e db = db := by
  have hig : should_ignore_file cfg (ev_src e) = true := by
    simp only [should_ignore_file]
    simp only [Bool.or_assoc] at h ⊢
    rcases Bool.or_eq_true_iff.mp h with h1 | h2
    · simp [h1]
    · simp [h2]
  cases e <;>
    simp_all [dispatch, on_created, on_modified, on_deleted, on_moved, ev_src]

/-- Witness for C3: a CREATE on `/tmp/cache.tmp` matches the default
excluded extension `.tmp` and leaves the empty store unchanged. -/
theorem excluded_event_dropped_witness :
    (default_config.excluded_extensions.any
        (fun ext => containsSub (lowerStr (ev_src (Ev.created false "/tmp/cache.tmp" 0))) ext)
      || default_config.excluded_paths.any
        (fun p => containsSub (lowerStr (ev_src (Ev.created false "/tmp/cache.tmp" 0))) p)) = true
    ∧ dispatch default_config ⟨"alice", "python.exe", 42, "t0", 0⟩
        (Ev.created false "/tmp/cache.tmp" 0) empty_db = empty_db :=
  ⟨by decide, excluded_event_dropped default_config ⟨"alice", "python.exe", 42, "t0", 0⟩
      (Ev.created false "/tmp/cache.tmp" 0) empty_db (by decide)⟩

/-- Counterexample for C4: with the lock busy on the first attempt and
free from the second attempt on, the code surfaces the busy error
without ever writing, while the retrying writer the spec describes
(maximum three attempts shown) succeeds on its second attempt - the
source performs no retry at all. -/
theorem busy_write_no_retry_cex :
    log_activity_contended default_config ⟨"alice", "python.exe", 42, "t0", 0⟩
        "CREATE" "/home/user/report.txt" 0 empty_db busy_then_free
      = Except.error "database is locked"
    ∧ log_activity_retrying 3 default_config ⟨"alice", "python.exe", 42, "t0", 0⟩
        "CREATE" "/home/user/report.txt" 0 empty_db busy_then_free
      = Except.ok (log_activity default_config ⟨"alice", "python.exe", 42, "t0", 0⟩
          "CREATE" "/home/user/report.txt" 0 empty_db) :=
  ⟨rfl, rfl⟩

/-- C4 amended: when the first lock attempt is busy, `log_activity`
makes no further attempt: the transient-busy error is raised to the
caller immediately (no retry, no backoff, no row persisted), whatever
the rest of the outcome stream would have allowed. -/
theorem busy_write_single_attempt (cfg : Config) (ctx : Ctx) (action file_path : String)
    (file_size : Nat) (db : MonitorDb) (outs : Nat → WriteOutcome)
    (h : outs 0 = WriteOutcome.busy) :
    log_activity_contended cfg ctx action file_path file_size db outs
      = Except.error "database is locked" := by
  simp [log_activity_contended, h]

/-- Witness for the amended C4 at the busy-then-free outcome stream. -/
theorem busy_write_single_attempt_witness :
    busy_then_free 0 = WriteOutcome.busy
    ∧ log_activity_contended default_config ⟨"a", "p", 1, "t", 0⟩ "MODIFY" "/x" 0 empty_db
        busy_then_free = Except.error "database is locked" :=
  ⟨rfl, busy_write_single_attempt default_config ⟨"a", "p", 1, "t", 0⟩ "MODIFY" "/x" 0
      empty_db busy_then_free rfl⟩

/-- Counterexample for C8: for DELETE on the spec's scenario path the
alert description generated by the service pipeline is exactly
High-risk delete operation detected - it does not contain the event's
path, and differs from the spec's template with the path appended. -/
theorem alert_description_omits_path_cex :
    (log_activity default_config ⟨"alice", "python.exe", 42, "2026-01-01 00:00:00", 0⟩
        "DELETE" "C:\\Windows\\System32\\drivers\\evil.sys" 0 empty_db).alerts.map
        (fun a => a.description)
      = ["High-risk delete operation detected"]
    ∧ containsSub "High-risk delete operation detected"
        "C:\\Windows\\System32\\drivers\\evil.sys" = false
    ∧ "High-risk delete operation detected"
        ≠ "High-risk delete operation detected on C:\\Windows\\System32\\drivers\\evil.sys" := by
  refine ⟨by decide, by decide, by decide⟩

/-- C8 amended: for every High-risk event the service pipeline appends
exactly one alert whose description is
High-risk, the lowercased action, operation detected - containing the
lowercase action but no path component (the standalone monitor variant
appends only the basename). -/
theorem alert_description_amended (cfg : Config) (ctx : Ctx) (action file_path : String)
    (file_size : Nat) (db : MonitorDb)
    (h : assess_risk_level cfg file_path action = "High") :
    (log_activity cfg ctx action file_path file_size db).alerts.map (fun a => a.description)
      = db.alerts.map (fun a => a.description)
        ++ ["High-risk " ++ lowerStr action ++ " operation detected"]
    ∧ containsSub ("High-risk " ++ lowerStr action ++ " operation detected")
        (lowerStr action) = true := by
  constructor
  · have hb : (assess_risk_level cfg file_path action == "High") = true := by simp [h]
    simp [log_activity, send_signal, hb]
  · exact containsSub_middle "High-risk " (lowerStr action) " operation detected"

/-- Witness for the amended C8 at the DELETE scenario input. -/
theorem alert_description_amended_witness :
    assess_risk_level default_config "C:\\Windows\\System32\\drivers\\evil.sys" "DELETE" = "High"
    ∧ ((log_activity default_config ⟨"bob", "cmd.exe", 7, "t1", 3⟩ "DELETE"
          "C:\\Windows\\System32\\drivers\\evil.sys" 0 empty_db).alerts.map
          (fun a => a.description)
        = empty_db.alerts.map (fun a => a.description)
          ++ ["High-risk " ++ lowerStr "DELETE" ++ " operation detected"]
      ∧ containsSub ("High-risk " ++ lowerStr "DELETE" ++ " operation detected")
          (lowerStr "DELETE") = true) :=
  ⟨by decide, alert_description_amended default_config ⟨"bob", "cmd.exe", 7, "t1", 3⟩ "DELETE"
      "C:\\Windows\\System32\\drivers\\evil.sys" 0 empty_db (by decide)⟩

/-- Counterexample for C9: the legacy dismiss endpoint of `app.py`
deletes the alert row outright - after dismissing alert 1 the table is
empty and no row with id 1 and status Dismissed exists. -/
theorem app_dismiss_deletes_row_cex :
    app_dismiss_alert 1 [⟨1, "t", "u", "d", "p", "High", "New"⟩] = ([] : List AlertRow)
    ∧ ¬ ∃ a ∈ app_dismiss_alert 1 [⟨1, "t", "u", "d", "p", "High", "New"⟩],
        a.id = 1 ∧ a.status = "Dismissed" := by
  exact ⟨by decide, by decide⟩

/-- C9 amended: the `/api/alert-action` endpoint maps acknowledge,
resolve, dismiss and investigate to Acknowledged, Resolved, Dismissed
and Under Investigation, reports success, touches no other table,
retains every alert row (same row count), rewrites only the targeted
row's status, and accepts the transition whatever the row's current
status; the legacy `app.py` dismiss endpoint instead deletes the row. -/
theorem alert_action_amended (action : String) (alert_id : Nat) (db : MonitorDb) :
    status_map "acknowledge" = some "Acknowledged"
    ∧ status_map "resolve" = some "Resolved"
    ∧ status_map "dismiss" = some "Dismissed"
    ∧ status_map "investigate" = some "Under Investigation"
    ∧ (api_alert_action action alert_id db).1.1 = true
    ∧ (api_alert_action action alert_id db).2.activities = db.activities
    ∧ (api_alert_action action alert_id db).2.signals = db.signals
    ∧ (api_alert_action action alert_id db).2.status_table = db.status_table
    ∧ ((api_alert_action action alert_id db).2.alerts).length = db.alerts.length
    ∧ ∀ a ∈ db.alerts,
        (a.id = alert_id →
          { a with status := (status_map action).getD "New" }
            ∈ (api_alert_action action alert_id db).2.alerts)
        ∧ (a.id ≠ alert_id → a ∈ (api_alert_action action alert_id db).2.alerts) := by
  refine ⟨rfl, rfl, rfl, rfl, rfl, rfl, rfl, rfl, by simp [api_alert_action], ?_⟩
  intro a ha
  have hmem : (if a.id == alert_id then
        ({ a with status := (status_map action).getD "New" } : AlertRow) else a)
      ∈ (api_alert_action action alert_id db).2.alerts :=
    List.mem_map_of_mem _ ha
  constructor
  · intro hid
    rwa [if_pos (show (a.id == alert_id) = true by simp [hid])] at hmem
  · intro hid
    rwa [if_neg (show ¬(a.id == alert_id) = true by simp [hid])] at hmem

/-- Witness for the amended C9: dismissing alert 1 through the
web-interface endpoint keeps the row and flips its status from New to
Dismissed. -/
theorem alert_action_amended_witness :
    (⟨1, "t", "u", "d", "p", "High", "Dismissed"⟩ : AlertRow)
      ∈ (api_alert_action "dismiss" 1
          ⟨[], [⟨1, "t", "u", "d", "p", "High", "New"⟩], [], [], 1, 2, 1⟩).2.alerts := by
  have h := (alert_action_amended "dismiss" 1
      ⟨[], [⟨1, "t", "u", "d", "p", "High", "New"⟩], [], [], 1, 2, 1⟩).2.2.2.2.2.2.2.2.2
      ⟨1, "t", "u", "d", "p", "High", "New"⟩ (by simp)
  simpa using h.1 rfl

/-- C10: an action string outside the four recognized ones is not
rejected: the endpoint reports success and rewrites the targeted alert's
status to the mapping default New, whatever status it had. -/
theorem unknown_action_resets_status_new (action : String) (alert_id : Nat) (db : MonitorDb)
    (h : action ∉ (["acknowledge", "resolve", "dismiss", "investigate"] : List String)) :
    (api_alert_action action alert_id db).1.1 = true
    ∧ (api_alert_action action alert_id db).1.2 = "New"
    ∧ (api_alert_action action alert_id db).2.alerts
        = db.alerts.map (fun a => if a.id == alert_id then { a with status := "New" } else a) := by
  simp only [List.mem_cons, List.not_mem_nil, or_false] at h
  push_neg at h
  obtain ⟨h1, h2, h3, h4⟩ := h
  have hm : status_map action = none := by
    simp [status_map, h1, h2, h3, h4]
  refine ⟨rfl, ?_, ?_⟩ <;> simp [api_alert_action, hm]

/-- Witness for C10: the unknown action escalate moves a Resolved alert
back to status New and still reports success. -/
theorem unknown_action_resets_status_new_witness :
    ("escalate" ∉ (["acknowledge", "resolve", "dismiss", "investigate"] : List String))
    ∧ ((api_alert_action "escalate" 1
          ⟨[], [⟨1, "t", "u", "d", "p", "High", "Resolved"⟩], [], [], 1, 2, 1⟩).1.1 = true
      ∧ (api_alert_action "escalate" 1
          ⟨[], [⟨1, "t", "u", "d", "p", "High", "Resolved"⟩], [], [], 1, 2, 1⟩).1.2 = "New"
      ∧ (api_alert_action "escalate" 1
          ⟨[], [⟨1, "t", "u", "d", "p", "High", "Resolved"⟩], [], [], 1, 2, 1⟩).2.alerts
          = (⟨[], [⟨1, "t", "u", "d", "p", "High", "Resolved"⟩], [], [], 1, 2, 1⟩ :
              MonitorDb).alerts.map
              (fun a => if a.id == 1 then { a with status := "New" } else a)) :=
  ⟨by decide, unknown_action_resets_status_new "escalate" 1
      ⟨[], [⟨1, "t", "u", "d", "p", "High", "Resolved"⟩], [], [], 1, 2, 1⟩ (by decide)⟩

/-- C5: one consumer poll returns exactly the rows that were unprocessed
at read time (as a permutation of the table filter), ordered by
timestamp ascending, and the store it leaves behind marks processed
exactly the ids it returned - every other signal row, and every other
table, is unchanged. -/
theorem get_live_signals_consumes_unprocessed (db : MonitorDb) :
    ((get_live_signals db).1).Perm (db.signals.filter (fun s => !s.processed))
    ∧ List.Sorted sigLe (get_live_signals db).1
    ∧ (get_live_signals db).2.signals
        = db.signals.map (fun s =>
            if ((get_live_signals db).1.map (fun s => s.id)).contains s.id then
              { s with processed := true } else s)
    ∧ (get_live_signals db).2.activities = db.activities
    ∧ (get_live_signals db).2.alerts = db.alerts
    ∧ (get_live_signals db).2.status_table = db.status_table
    ∧ (get_live_signals db).2.next_signal_id = db.next_signal_id := by
  refine ⟨List.perm_insertionSort sigLe _, List.sorted_insertionSort sigLe _, ?_, ?_, ?_, ?_, ?_⟩
  · simp only [get_live_signals]
    split
    · next hemp =>
      have hnil : (List.insertionSort sigLe (db.signals.filter (fun s => !s.processed))).map
          (fun s => s.id) = [] := List.isEmpty_iff.mp hemp
      simp [hnil]
    · rfl
  all_goals simp only [get_live_signals]
  all_goals split <;> rfl

/-- One `log_activity` call never touches the `service_status` table. -/
theorem log_activity_status_table (cfg : Config) (ctx : Ctx) (action file_path : String)
    (file_size : Nat) (db : MonitorDb) :
    (log_activity cfg ctx action file_path file_size db).status_table = db.status_table := by
  cases h : assess_risk_level cfg file_path action == "High" <;>
    simp [log_activity, send_signal, h]

/-- Event dispatch never touches the `service_status` table. -/
theorem dispatch_status_table (cfg : Config) (ctx : Ctx) (e : Ev) (db : MonitorDb) :
    (dispatch cfg ctx e db).status_table = db.status_table := by
  cases e <;>
    simp only [dispatch, on_created, on_modified, on_deleted, on_moved] <;>
    split <;> first | apply log_activity_status_table | rfl

/-- A consumer poll never touches the `service_status` table. -/
theorem get_live_signals_status_table (db : MonitorDb) :
    (get_live_signals db).2.status_table = db.status_table := by
  simp only [get_live_signals]
  split <;> rfl

/-- `StatusInv` transfers along equal status tables. -/
theorem statusInv_congr {db db' : MonitorDb}
    (h : db'.status_table = db.status_table) (hinv : StatusInv db) : StatusInv db' :=
  ⟨by rw [h]; exact hinv.1, by rw [h]; exact hinv.2⟩

/-- The heartbeat upsert keeps the status table a singleton with id 1. -/
theorem update_service_status_statusInv (cfg : Config) (now status : String)
    (db : MonitorDb) (h : StatusInv db) :
    StatusInv (update_service_status cfg now status db) := by
  have hfil : db.status_table.filter (fun p => p.1 != 1) = [] := by
    rw [List.filter_eq_nil_iff]
    intro p hp
    simp [h.2 p hp]
  constructor
  · show ((1, _) :: db.status_table.filter (fun p => p.1 != 1)).length ≤ 1
    rw [hfil]
    exact Nat.le_refl 1
  · show ∀ p ∈ (1, _) :: db.status_table.filter (fun p => p.1 != 1), p.1 = 1
    rw [hfil]
    intro p hp
    rw [List.mem_singleton.mp hp]

/-- Every store operation keeps the status table a singleton. -/
theorem apply_op_statusInv (cfg : Config) (op : Op) (db : MonitorDb)
    (h : StatusInv db) : StatusInv (apply_op cfg op db).1 := by
  cases op with
  | ingest ctx e => exact statusInv_congr (dispatch_status_table cfg ctx e db) h
  | consume => exact statusInv_congr (get_live_signals_status_table db) h
  | tick now status => exact update_service_status_statusInv cfg now status db h
  | alertAction action alert_id => exact statusInv_congr rfl h
  | produce t d ts => exact statusInv_congr rfl h

/-- Runs of store operations keep the status table a singleton. -/
theorem run_ops_statusInv (cfg : Config) (ops : List Op) :
    ∀ db, StatusInv db → StatusInv (run_ops cfg ops db).1 := by
  induction ops with
  | nil => exact fun db h => h
  | cons op ops ih =>
      intro db h
      exact ih (apply_op cfg op db).1 (apply_op_statusInv cfg op db h)

/-- C7: each heartbeat tick upserts the fixed-id row with
`total_activities` the exact ChangeEvent row count and `alerts_count`
the exact count of Alerts with status New, both read from the store
state at that tick; and along every operation sequence after
`init_database` the `service_status` table holds at most one row, with
id 1. -/
theorem service_status_heartbeat :
    (∀ cfg (now status : String) (db : MonitorDb),
      (update_service_status cfg now status db).status_table
        = (1, ⟨status, now, cfg.watch_paths, db.activities.length,
            (db.alerts.filter (fun a => a.status == "New")).length⟩)
          :: db.status_table.filter (fun p => p.1 != 1))
    ∧ (∀ cfg (now0 : String) (ops : List Op),
        (run_ops cfg ops (init_database cfg now0)).1.status_table.length ≤ 1
        ∧ ∀ p ∈ (run_ops cfg ops (init_database cfg now0)).1.status_table, p.1 = 1) := by
  refine ⟨fun cfg now status db => rfl, fun cfg now0 ops => ?_⟩
  have hinit : StatusInv (init_database cfg now0) := by
    constructor
    · exact Nat.le_refl 1
    · intro p hp
      rw [List.mem_singleton.mp hp]
  exact run_ops_statusInv cfg ops (init_database cfg now0) hinit

/-- `SigInv` transfers along equal signal tables and counters. -/
theorem sigInv_congr {db db' : MonitorDb} (hs : db'.signals = db.signals)
    (hn : db'.next_signal_id = db.next_signal_id) (h : SigInv db) : SigInv db' :=
  ⟨by rw [hs, hn]; exact h.1, by rw [hs]; exact h.2⟩

/-- A producer append keeps signal ids bounded and distinct. -/
theorem send_signal_sigInv (t : String) (d : Option SignalData) (ts : Nat)
    (db : MonitorDb) (h : SigInv db) : SigInv (send_signal t d ts db) := by
  obtain ⟨hlt, hnd⟩ := h
  constructor
  · intro s hs
    rcases List.mem_append.mp hs with h1 | h2
    · exact Nat.lt_succ_of_lt (hlt s h1)
    · rw [List.mem_singleton.mp h2]
      exact Nat.lt_succ_self _
  · show ((db.signals ++ [_]).map (fun s : SignalRow => s.id)).Nodup
    rw [List.map_append, List.nodup_append]
    refine ⟨hnd, List.nodup_singleton _, ?_⟩
    intro x hx hx'
    obtain ⟨s, hs, hid⟩ := List.mem_map.mp hx
    rw [List.mem_singleton.mp hx'] at hid
    exact Nat.lt_irrefl _ (hid ▸ hlt s hs)

/-- Activity logging appends its signals at fresh ids, keeping the
invariant. -/
theorem log_activity_sigInv (cfg : Config) (ctx : Ctx) (action file_path : String)
    (file_size : Nat) (db : MonitorDb) (h : SigInv db) :
    SigInv (log_activity cfg ctx action file_path file_size db) := by
  unfold log_activity
  dsimp only
  apply send_signal_sigInv
  split
  · apply send_signal_sigInv
    exact sigInv_congr rfl rfl h
  · exact sigInv_congr rfl rfl h

/-- Activity logging only appends to the signal table: existing rows
stay members. -/
theorem log_activity_signals_mem (cfg : Config) (ctx : Ctx) (action file_path : String)
    (file_size : Nat) (db : MonitorDb) {row : SignalRow} (hr : row ∈ db.signals) :
    row ∈ (log_activity cfg ctx action file_path file_size db).signals := by
  unfold log_activity
  dsimp only
  show row ∈ _ ++ _
  apply List.mem_append_left
  split
  · exact List.mem_append_left _ hr
  · exact hr

/-- Event dispatch never removes a signal row. -/
theorem dispatch_signals_mem (cfg : Config) (ctx : Ctx) (e : Ev) (db : MonitorDb)
    {row : SignalRow} (hr : row ∈ db.signals) :
    row ∈ (dispatch cfg ctx e db).signals := by
  cases e <;>
    simp only [dispatch, on_created, on_modified, on_deleted, on_moved] <;>
    split <;> first | apply log_activity_signals_mem _ _ _ _ _ _ hr | exact hr

/-- Event dispatch keeps the signal invariant. -/
theorem dispatch_sigInv (cfg : Config) (ctx : Ctx) (e : Ev) (db : MonitorDb)
    (h : SigInv db) : SigInv (dispatch cfg ctx e db) := by
  cases e <;>
    simp only [dispatch, on_created, on_modified, on_deleted, on_moved] <;>
    split <;> first | apply log_activity_sigInv _ _ _ _ _ _ h | exact h

/-- The consumer's mark step rewrites rows in place without changing
ids, keeping the signal invariant. -/
theorem get_live_signals_sigInv (db : MonitorDb) (h : SigInv db) :
    SigInv (get_live_signals db).2 := by
  obtain ⟨hlt, hnd⟩ := h
  simp only [get_live_signals]
  split
  · exact ⟨hlt, hnd⟩
  · constructor
    · intro s hs
      obtain ⟨s0, hs0, he⟩ := List.mem_map.mp hs
      have hid : s.id = s0.id := by
        rw [← he]
        split <;> rfl
      rw [hid]
      exact hlt s0 hs0
    · show ((db.signals.map _).map (fun s : SignalRow => s.id)).Nodup
      rw [List.map_map]
      have hcomp : ((fun s : SignalRow => s.id) ∘ (fun s : SignalRow =>
          if ((List.insertionSort sigLe (db.signals.filter (fun s => !s.processed))).map
              (fun s => s.id)).contains s.id then
            { s with processed := true } else s)) = fun s : SignalRow => s.id := by
        funext s
        simp only [Function.comp]
        split <;> rfl
      rw [hcomp]
      exact hnd

/-- Every store operation keeps the signal invariant. -/
theorem apply_op_sigInv (cfg : Config) (op : Op) (db : MonitorDb)
    (h : SigInv db) : SigInv (apply_op cfg op db).1 := by
  cases op with
  | ingest ctx e => exact dispatch_sigInv cfg ctx e db h
  | consume => exact get_live_signals_sigInv db h
  | tick now status => exact sigInv_congr rfl rfl h
  | alertAction action alert_id => exact sigInv_congr rfl rfl h
  | produce t d ts => exact send_signal_sigInv t d ts db h

/-- One store operation neither disturbs a processed signal row nor
hands its id to the reader. -/
theorem apply_op_keeps_processed (cfg : Config) (op : Op) (db : MonitorDb)
    (row : SignalRow) (hinv : SigInv db) (hr : row ∈ db.signals)
    (hp : row.processed = true) :
    row ∈ (apply_op cfg op db).1.signals ∧ row.id ∉ (apply_op cfg op db).2 := by
  cases op with
  | ingest ctx e => exact ⟨dispatch_signals_mem cfg ctx e db hr, List.not_mem_nil _⟩
  | tick now status => exact ⟨hr, List.not_mem_nil _⟩
  | alertAction action alert_id => exact ⟨hr, List.not_mem_nil _⟩
  | produce t d ts => exact ⟨List.mem_append_left _ hr, List.not_mem_nil _⟩
  | consume =>
      have hnotin : row.id ∉ (List.insertionSort sigLe
          (db.signals.filter (fun s => !s.processed))).map (fun s => s.id) := by
        intro hmem
        obtain ⟨s, hs, hid⟩ := List.mem_map.mp hmem
        rw [List.mem_insertionSort] at hs
        have hs' := List.mem_filter.mp hs
        have : s = row := List.inj_on_of_nodup_map hinv.2 hs'.1 hr hid
        rw [this, hp] at hs'
        simp at hs'
      constructor
      · show row ∈ (if _ then db else _).signals
        split
        · exact hr
        · have hc : ((List.insertionSort sigLe
              (db.signals.filter (fun s => !s.processed))).map
              (fun s => s.id)).contains row.id = false := by
            rw [← Bool.not_eq_true]
            intro hcc
            exact hnotin (List.elem_iff.mp hcc)
          have heq : (fun s : SignalRow =>
              if ((List.insertionSort sigLe (db.signals.filter (fun s => !s.processed))).map
                  (fun s => s.id)).contains s.id then
                { s with processed := true } else s) row = row := by
            simp [hc]
            intro x hx hpx hid
            have hxr : x = row := List.inj_on_of_nodup_map hinv.2 hx hr hid
            rw [hxr, hp] at hpx
            exact absurd hpx (by decide)
          have := List.mem_map_of_mem (fun s : SignalRow =>
              if ((List.insertionSort sigLe (db.signals.filter (fun s => !s.processed))).map
                  (fun s => s.id)).contains s.id then
                { s with processed := true } else s) hr
          rw [heq] at this
          exact this
      · exact hnotin

/-- Along any run of store operations a processed signal row survives
untouched, its id is never handed out again, and the invariant holds at
the end. -/
theorem run_ops_keeps_processed (cfg : Config) (ops : List Op) :
    ∀ db row, SigInv db → row ∈ db.signals → row.processed = true →
      row ∈ (run_ops cfg ops db).1.signals ∧ row.id ∉ (run_ops cfg ops db).2
      ∧ SigInv (run_ops cfg ops db).1 := by
  induction ops with
  | nil => exact fun db row h hr _ => ⟨hr, List.not_mem_nil _, h⟩
  | cons op ops ih =>
      intro db row h hr hp
      obtain ⟨hmem, hout⟩ := apply_op_keeps_processed cfg op db row h hr hp
      obtain ⟨m2, o2, i2⟩ := ih (apply_op cfg op db).1 row
        (apply_op_sigInv cfg op db h) hmem hp
      refine ⟨m2, ?_, i2⟩
      intro hx
      rcases List.mem_append.mp hx with hx1 | hx2
      · exact hout hx1
      · exact o2 hx2

/-- C6: the processed flag is monotonic: starting from a well-formed
store, a signal row already marked processed is still present and
unchanged after any sequence of store operations (no reset to
unprocessed, no deletion, and - by id uniqueness - it is the only row
with its id), and its id is never again returned by the unprocessed-read
query. -/
theorem processed_flag_monotonic (cfg : Config) (ops : List Op) (db : MonitorDb)
    (row : SignalRow) (hinv : SigInv db) (hr : row ∈ db.signals)
    (hp : row.processed = true) :
    row ∈ (run_ops cfg ops db).1.signals
    ∧ (∀ s ∈ (run_ops cfg ops db).1.signals, s.id = row.id → s = row)
    ∧ row.id ∉ (run_ops cfg ops db).2 := by
  obtain ⟨hm, ho, hi⟩ := run_ops_keeps_processed cfg ops db row hinv hr hp
  refine ⟨hm, ?_, ho⟩
  intro s hs hid
  exact List.inj_on_of_nodup_map hi.2 hs hm hid

/-- Witness for C6: a store holding one processed signal, then a
producer append followed by a consumer poll - the processed row
survives and its id 1 is not returned. -/
theorem processed_flag_monotonic_witness :
    SigInv ⟨[], [], [⟨1, "new_activity", none, 0, true⟩], [], 1, 1, 2⟩
    ∧ (⟨1, "new_activity", none, 0, true⟩ : SignalRow)
        ∈ (⟨[], [], [⟨1, "new_activity", none, 0, true⟩], [], 1, 1, 2⟩ : MonitorDb).signals
    ∧ (⟨1, "new_activity", none, 0, true⟩ : SignalRow)
        ∈ (run_ops default_config [Op.produce "new_alert" none 5, Op.consume]
            ⟨[], [], [⟨1, "new_activity", none, 0, true⟩], [], 1, 1, 2⟩).1.signals
    ∧ (⟨1, "new_activity", none, 0, true⟩ : SignalRow).id
        ∉ (run_ops default_config [Op.produce "new_alert" none 5, Op.consume]
            ⟨[], [], [⟨1, "new_activity", none, 0, true⟩], [], 1, 1, 2⟩).2 := by
  have h := processed_flag_monotonic default_config [Op.produce "new_alert" none 5, Op.consume]
    ⟨[], [], [⟨1, "new_activity", none, 0, true⟩], [], 1, 1, 2⟩
    ⟨1, "new_activity", none, 0, true⟩ ⟨by decide, by decide⟩ (by decide) rfl
  exact ⟨⟨by decide, by decide⟩, by decide, h.1, h.2.2⟩

end TrackVault
